import Mathlib

/-!
Shallow embedding of the multi-tenant organization-management backend.

The service layer (`src/services.js`: `OrganizationService.createOrganization`,
`getOrganization`, `updateOrganization`, `deleteOrganization`,
`AuthService.adminLogin`, `refreshAccessToken`) and the tenant-namespace
derivation (`database.js`: `createOrgDatabase` / `getOrgDb` /
`deleteOrgDatabase`) are translated here as pure functions over an explicit
database state.  MongoDB collections are modelled as lists in insertion
order; `findOne` is `List.find?`, `updateOne` updates the first match,
`deleteOne` removes the first match.  `ObjectId` generation is modelled by a
counter (`nextId`); timestamps (`new Date()`) are a `now : Nat` parameter.

The credential hasher and token issuer live in `src/auth.js`
(`PasswordManager`, `TokenManager`); in this corpus that file appears as
the segment at lines 290-349 of `src/scripts/seed_master_db.js` (the corpus
files are concatenations of repository documents separated by markers).
They are embedded here with the standard cryptographic idealizations: a
bcrypt hash is the pair of its salt and the password it was computed from
(bcrypt embeds the salt in the hash and `compare` re-hashes and compares);
a JWT is its signed payload together with its `iat`/`exp` claims, any other
string failing signature verification; the SHA-256 fingerprint is
collision-free, so a digest is determined by, and determines, the token.

Besides the result, every operation also returns the final state and a log
of the store write commands it issued, so that claims about write ordering
and about frame conditions can be stated.  All error paths in the source
throw before any write, so an error result always comes with the unchanged
state and an empty log.
-/

deriving instance DecidableEq for Except

namespace Backend

/-- A bcrypt hash as produced by `PasswordManager.hashPassword` (auth.js,
at scripts/seed_master_db.js lines 296-299): `bcrypt.genSalt(12)` then
`bcrypt.hash(password, salt)`.  A bcrypt hash string embeds its salt and is
determined by (salt, password), which is exactly how it is modelled; it is
one-way in reality, which the development respects by only ever comparing
hashes, never projecting `pw` out. -/
structure Hash where
  salt : Nat
  pw : String
deriving DecidableEq, Repr

/-- `PasswordManager.hashPassword(password)` (auth.js, at
scripts/seed_master_db.js lines 296-299).  `bcrypt.genSalt(12)` draws a
fresh salt per call — modelled by the caller passing the state's salt
counter — and the hash is determined by salt and password. -/
def hashPassword (salt : Nat) (p : String) : Hash := ⟨salt, p⟩

/-- `PasswordManager.verifyPassword(password, hashedPassword)` (auth.js, at
scripts/seed_master_db.js lines 301-303): `bcrypt.compare` re-hashes the
password with the salt embedded in the hash and compares — true exactly
when the password is the one the hash was computed from; returns false on
mismatch, never throws. -/
def verifyPassword (p : String) (h : Hash) : Bool := p == h.pw

/-- The JWT payloads built by `TokenManager` (auth.js, at
scripts/seed_master_db.js lines 308-313 and 322-326): access tokens carry
`{ sub, org_id, org_name, role }`, refresh tokens `{ sub, org_id,
type: 'refresh' }` — the `type` discriminator is the choice of
constructor. -/
inductive TokenPayload
  | access (sub : Nat) (org_id : Option Nat) (org_name : Option String) (role : String)
  | refresh (sub : Nat) (org_id : Option Nat)
deriving DecidableEq, Repr

/-- The refresh-type marker check: `decoded.type !== 'refresh'` in
`refreshAccessToken`. -/
def TokenPayload.isRefreshType : TokenPayload → Bool
  | .refresh _ _ => true
  | .access _ _ _ _ => false

/-- A token as handled by `TokenManager` (auth.js, at
scripts/seed_master_db.js lines 306-347).  `jwt.sign` makes the token a
function of its payload and its `iat`/`exp` claims (same payload and times
give the identical token string), captured by `signed`; any string not
produced by signing with the process secret fails `jwt.verify`, captured by
`forged`. -/
inductive Token
  | signed (payload : TokenPayload) (iat : Nat) (exp : Nat)
  | forged (raw : String)
deriving DecidableEq, Repr

/-- Access-token validity: `expiresIn = '15m'` in
`TokenManager.createAccessToken` (and `expires_in: 15 * 60` in
services.js). -/
def accessTtl : Nat := 15 * 60

/-- Refresh-token validity: `expiresIn = '7d'` in
`TokenManager.createRefreshToken`. -/
def refreshTtl : Nat := 7 * 24 * 60 * 60

/-- `TokenManager.createAccessToken(adminId, orgId, orgName, role)`
(auth.js, at scripts/seed_master_db.js lines 307-319): signs
`{ sub, org_id, org_name, role }` with the process secret; `jwt.sign` sets
`iat` to the current time and `exp` 15 minutes later. -/
def createAccessToken (now : Nat) (sub : Nat) (orgId : Option Nat)
    (orgName : Option String) (role : String) : Token :=
  .signed (.access sub orgId orgName role) now (now + accessTtl)

/-- `TokenManager.createRefreshToken(adminId, orgId)` (auth.js, at
scripts/seed_master_db.js lines 321-332): signs
`{ sub, org_id, type: 'refresh' }`; `jwt.sign` sets `iat` to the current
time and `exp` 7 days later. -/
def createRefreshToken (now : Nat) (sub : Nat) (orgId : Option Nat) : Token :=
  .signed (.refresh sub orgId) now (now + refreshTtl)

/-- `TokenManager.verifyToken(token)` (auth.js, at
scripts/seed_master_db.js lines 334-342): `jwt.verify` checks the signature
and that `exp` has not passed, returning the decoded claims; it throws on a
forged token or an expired one — the `none` result here. -/
def verifyToken (now : Nat) (t : Token) : Option TokenPayload :=
  match t with
  | .signed payload _ exp => if now < exp then some payload else none
  | .forged _ => none

/-- The SHA-256 hex digest produced by `TokenManager.hashToken` (auth.js,
at scripts/seed_master_db.js lines 344-346).  SHA-256 is deterministic and
collision-free in practice, so a digest is modelled as determined by (and
only by) the token; it is one-way in reality, which the development
respects by only ever comparing digests. -/
structure Fingerprint where
  digest : Token
deriving DecidableEq, Repr

/-- `TokenManager.hashToken(token)` (auth.js, at
scripts/seed_master_db.js lines 344-346):
`crypto.createHash('sha256').update(token).digest('hex')` — same token,
same digest; distinct tokens, distinct digests. -/
def hashToken (t : Token) : Fingerprint := ⟨t⟩

/-- Model of the external `validator.isEmail` used by services.js: exactly
one `@` separating a non-empty local part from a non-empty domain that
contains a dot.  The claims never depend on the exact shape of this
predicate, only on it being a pure check that can fail. -/
def isEmail (s : String) : Bool :=
  let u := s.data.takeWhile (fun c => !(c == '@'))
  match s.data.dropWhile (fun c => !(c == '@')) with
  | '@' :: d => !u.isEmpty && !d.isEmpty && d.contains '.' && !d.contains '@'
  | _ => false

/-- The character class of the JavaScript regex `\s` used in
`orgName.toLowerCase().replace(/\s+/g, '_')` (database.js). -/
def isJsWhitespace (c : Char) : Bool :=
  let n := c.toNat
  n == 0x20 || n == 0x9 || n == 0xA || n == 0xB || n == 0xC || n == 0xD ||
  n == 0xA0 || n == 0x1680 || n == 0x2000 || n == 0x2001 || n == 0x2002 ||
  n == 0x2003 || n == 0x2004 || n == 0x2005 || n == 0x2006 || n == 0x2007 ||
  n == 0x2008 || n == 0x2009 || n == 0x200A || n == 0x2028 || n == 0x2029 ||
  n == 0x202F || n == 0x205F || n == 0x3000 || n == 0xFEFF

/-- `replace(/\s+/g, '_')` at the character-list level: each maximal run of
whitespace becomes a single underscore.  The boolean records whether the
previous character was part of a whitespace run. -/
def squashWs : Bool → List Char → List Char
  | _, [] => []
  | prevWs, c :: cs =>
    if isJsWhitespace c then
      if prevWs then squashWs true cs else '_' :: squashWs true cs
    else c :: squashWs false cs

/-- The tenant-namespace derivation of database.js, shared by
`createOrgDatabase`, `getOrgDb` and `deleteOrgDatabase`:
`` `org_${orgName.toLowerCase().replace(/\s+/g, '_')}` ``.
`toLowerCase` is modelled per character by `Char.toLower`. -/
def dbNameFor (orgName : String) : String :=
  "org_" ++ String.mk (squashWs false (orgName.data.map Char.toLower))

/-- One step of collapsing whitespace runs, written as a left fold for the
spec-side derivation `namespaceFor`. -/
def collapseRunsStep (acc : List Char × Bool) (c : Char) : List Char × Bool :=
  if isJsWhitespace c then
    (if acc.2 then acc.1 else acc.1 ++ ['_'], true)
  else (acc.1 ++ [c], false)

/-- Modelled from the spec's words, for comparison with the source-side
`dbNameFor`: `namespaceFor(orgName)` is a "pure deterministic derivation
(lowercase; whitespace runs → single underscore; fixed prefix)"
(spec 4.3), the prefix being `org_` (spec section 8 scenario and the data
model's "prefixed" derivation). -/
def namespaceFor (orgName : String) : String :=
  "org_" ++ String.mk ((orgName.data.map Char.toLower).foldl collapseRunsStep ([], false)).1

/-- A document of the master `admin_users` collection
(`config.adminCollection`), as written by `createOrganization` and the seed
script, and updated by `adminLogin` and `updateOrganization`. -/
structure AdminRecord where
  _id : Nat
  admin_email : String
  password : Hash
  role : String
  organization_id : Option Nat
  organization_name : Option String
  created_at : Nat
  is_active : Bool
  refresh_token_hash : Option Fingerprint
  refresh_token_issued_at : Option Nat
deriving DecidableEq, Repr

/-- A document of the master `organizations` collection
(`config.masterCollection`). -/
structure OrgRecord where
  _id : Nat
  organization_name : String
  db_name : String
  admin_email : String
  admin_user_id : Nat
  created_at : Nat
  is_active : Bool
deriving DecidableEq, Repr

/-- A document of a tenant database's `users` collection. -/
structure UserRecord where
  _id : Nat
  email : String
  password : Hash
  role : String
  created_at : Nat
  is_active : Bool
  updated_at : Option Nat
deriving DecidableEq, Repr

/-- The whole persisted state: the two master collections, the per-tenant
`users` collections keyed by database name, plus the id and salt counters
that model `ObjectId` generation and bcrypt salt generation. -/
structure DbState where
  organizations : List OrgRecord
  admin_users : List AdminRecord
  tenants : List (String × List UserRecord)
  nextId : Nat
  nextSalt : Nat
deriving DecidableEq, Repr

/-- The error taxonomy of spec section 7, as surfaced by the six service
operations.  `missingFields`, `invalidEmailFormat` and `passwordTooShort`
are the `ValidationFailure` cases; `invalidRefreshToken` covers bad
signature, expiry and a wrong type marker on the presented refresh token;
`forbidden` exists only in the HTTP layer's taxonomy and is never produced
by the service layer. -/
inductive Err
  | missingFields
  | invalidEmailFormat
  | passwordTooShort
  | alreadyExists
  | notFound
  | invalidCredentials
  | invalidRefreshToken
  | refreshMismatch
  | forbidden
deriving DecidableEq, Repr

/-- A store write command issued by an operation, in program order.
`provisionTenant` is `createOrgDatabase` (namespace handle plus the unique
index on the tenant users collection); `hashPw` records the one
`PasswordManager.hashPassword` call of `createOrganization` /
`updateOrganization`; the remaining constructors are the individual
`insertOne` / `updateOne` / `deleteOne` / `dropDatabase` commands. -/
inductive Event
  | provisionTenant (dbName : String)
  | hashPw (salt : Nat)
  | insertTenantUser (dbName : String) (u : UserRecord)
  | insertAdmin (a : AdminRecord)
  | insertOrg (o : OrgRecord)
  | backfillAdmin (adminId : Nat) (orgId : Nat)
  | updateAdminCredentials (orgId : Nat) (email : String) (pw : Hash)
  | updateTenantUser (dbName : String) (email : String) (pw : Hash)
  | setRefreshFingerprint (adminId : Nat) (fp : Fingerprint)
  | deleteOrgRecord (name : String)
  | deleteAdminPrincipal (orgId : Nat)
  | dropTenant (dbName : String)
deriving DecidableEq, Repr

/-- Recognizes the tenant-local user-mirror insert among a write log. -/
def Event.isTenantUserWrite : Event → Bool
  | .insertTenantUser _ _ => true
  | _ => false

/-- Recognizes the master admin-principal insert among a write log. -/
def Event.isAdminInsert : Event → Bool
  | .insertAdmin _ => true
  | _ => false

/-- The outcome of one service operation: the value returned or the error
thrown, the state of the store afterwards, and the write commands issued. -/
structure OpOut (ρ : Type) where
  result : Except Err ρ
  state : DbState
  log : List Event

/-- `updateOne`: apply `f` to the first element matching `p`; no-op when
nothing matches. -/
def updateFirst {α : Type} (p : α → Bool) (f : α → α) : List α → List α
  | [] => []
  | x :: xs => if p x then f x :: xs else x :: updateFirst p f xs

/-- `deleteOne`: remove the first element matching `p`; no-op when nothing
matches. -/
def deleteFirst {α : Type} (p : α → Bool) : List α → List α
  | [] => []
  | x :: xs => if p x then xs else x :: deleteFirst p xs

/-- The tenant `users` collection of a given tenant database name;
`db(name)` on a database that was never written yields an empty store. -/
def getTenant (s : DbState) (dbName : String) : List UserRecord :=
  match s.tenants.find? (fun t => t.fst == dbName) with
  | some t => t.snd
  | none => []

/-- Replace (or create) the tenant `users` collection of a database name. -/
def setTenant (s : DbState) (dbName : String) (users : List UserRecord) : DbState :=
  if (s.tenants.find? (fun t => t.fst == dbName)).isSome then
    { s with tenants := updateFirst (fun t => t.fst == dbName) (fun t => (t.fst, users)) s.tenants }
  else
    { s with tenants := s.tenants ++ [(dbName, users)] }

/-- What `adminLogin`'s `updateOne` `$set` does to the matched admin
document: store the fresh refresh-token fingerprint and its issuance
timestamp. -/
def applyLoginSet (now : Nat) (fp : Fingerprint) (a : AdminRecord) : AdminRecord :=
  { a with refresh_token_hash := some fp, refresh_token_issued_at := some now }

/-- The success value of `OrganizationService.createOrganization`. -/
structure CreateResult where
  id : Nat
  organization_name : String
  db_name : String
  admin_email : String
  created_at : Nat
  message : String
deriving DecidableEq, Repr

/-- `OrganizationService.createOrganization(orgName, email, password)`
(services.js lines 9–90), with `DatabaseManager.createOrgDatabase`
(database.js) inlined as the tenant provisioning step. -/
def createOrganization (s : DbState) (now : Nat) (orgName email password : String) :
    OpOut CreateResult :=
  if orgName = "" ∨ email = "" ∨ password = "" then
    ⟨.error .missingFields, s, []⟩
  else if isEmail email = false then
    ⟨.error .invalidEmailFormat, s, []⟩
  else if password.length < 6 then
    ⟨.error .passwordTooShort, s, []⟩
  else
    match s.organizations.find? (fun o => o.organization_name == orgName) with
    | some _ => ⟨.error .alreadyExists, s, []⟩
    | none =>
      let dbName := dbNameFor orgName
      let s1 := setTenant s dbName (getTenant s dbName)
      let hashed := hashPassword s1.nextSalt password
      let s2 := { s1 with nextSalt := s1.nextSalt + 1 }
      let userId := s2.nextId
      let u : UserRecord := ⟨userId, email, hashed, "org_admin", now, true, none⟩
      let s3 := { setTenant s2 dbName (getTenant s2 dbName ++ [u]) with nextId := s2.nextId + 1 }
      let adminId := s3.nextId
      let a : AdminRecord := ⟨adminId, email, hashed, "org_admin", none, some orgName, now, true, none, none⟩
      let s4 := { s3 with admin_users := s3.admin_users ++ [a], nextId := s3.nextId + 1 }
      let orgId := s4.nextId
      let o : OrgRecord := ⟨orgId, orgName, dbName, email, userId, now, true⟩
      let s5 := { s4 with organizations := s4.organizations ++ [o], nextId := s4.nextId + 1 }
      let backfilled := updateFirst (fun x => x._id == adminId)
        (fun x => { x with organization_id := some orgId }) s5.admin_users
      let s6 := { s5 with admin_users := backfilled }
      ⟨.ok ⟨orgId, orgName, dbName, email, now, "Organization created successfully"⟩, s6,
        [.provisionTenant dbName, .hashPw hashed.salt, .insertTenantUser dbName u,
         .insertAdmin a, .insertOrg o, .backfillAdmin adminId orgId]⟩

/-- The success value of `OrganizationService.getOrganization`. -/
structure OrgView where
  id : Nat
  organization_name : String
  db_name : String
  admin_email : String
  created_at : Nat
  is_active : Bool
deriving DecidableEq, Repr

/-- `OrganizationService.getOrganization(orgName)` (services.js lines
92–114): a pure read of the master registry. -/
def getOrganization (s : DbState) (orgName : String) : OpOut OrgView :=
  if orgName = "" then ⟨.error .missingFields, s, []⟩
  else
    match s.organizations.find? (fun o => o.organization_name == orgName) with
    | none => ⟨.error .notFound, s, []⟩
    | some o =>
      ⟨.ok ⟨o._id, o.organization_name, o.db_name, o.admin_email, o.created_at, o.is_active⟩, s, []⟩

/-- The success value of `OrganizationService.updateOrganization`. -/
structure UpdateResult where
  message : String
  organization_name : String
deriving DecidableEq, Repr

/-- `OrganizationService.updateOrganization(orgName, email, password)`
(services.js lines 116–170).  The master admin principal is updated through
the filter `{ organization_id: org._id.toString() }`; the tenant users
collection is updated through the filter `{ role: 'admin' }` — both
faithfully preserved here, including the latter matching nothing when every
tenant user has role `org_admin`. -/
def updateOrganization (s : DbState) (now : Nat) (orgName email password : String) :
    OpOut UpdateResult :=
  if orgName = "" ∨ email = "" ∨ password = "" then
    ⟨.error .missingFields, s, []⟩
  else if isEmail email = false then
    ⟨.error .invalidEmailFormat, s, []⟩
  else
    match s.organizations.find? (fun o => o.organization_name == orgName) with
    | none => ⟨.error .notFound, s, []⟩
    | some org =>
      let hashed := hashPassword s.nextSalt password
      let s1 := { s with nextSalt := s.nextSalt + 1 }
      let admins := updateFirst (fun a => a.organization_id == some org._id)
        (fun a => { a with admin_email := email, password := hashed }) s1.admin_users
      let s2 := { s1 with admin_users := admins }
      let dbName := dbNameFor orgName
      let s3 := setTenant s2 dbName
        (updateFirst (fun u => u.role == "admin")
          (fun u => { u with email := email, password := hashed, updated_at := some now })
          (getTenant s2 dbName))
      ⟨.ok ⟨"Organization updated successfully", orgName⟩, s3,
        [.hashPw hashed.salt, .updateAdminCredentials org._id email hashed,
         .updateTenantUser dbName email hashed]⟩

/-- The success value of `OrganizationService.deleteOrganization`. -/
structure DeleteResult where
  message : String
  organization_name : String
deriving DecidableEq, Repr

/-- `OrganizationService.deleteOrganization(orgName, adminId)` (services.js
lines 172–204).  The `adminId` parameter is accepted but never used — the
source's own comment reads "Verify admin ownership (optional: can skip for
simplicity)" and no check follows. -/
def deleteOrganization (s : DbState) (orgName : String) (adminId : Nat) :
    OpOut DeleteResult :=
  if orgName = "" then ⟨.error .missingFields, s, []⟩
  else
    match s.organizations.find? (fun o => o.organization_name == orgName) with
    | none => ⟨.error .notFound, s, []⟩
    | some org =>
      let orgs := deleteFirst (fun o => o.organization_name == orgName) s.organizations
      let s1 := { s with organizations := orgs }
      let admins := deleteFirst (fun a => a.organization_id == some org._id) s1.admin_users
      let s2 := { s1 with admin_users := admins }
      let tens := deleteFirst (fun t => t.fst == dbNameFor orgName) s2.tenants
      let s3 := { s2 with tenants := tens }
      ⟨.ok ⟨"Organization deleted successfully", orgName⟩, s3,
        [.deleteOrgRecord orgName, .deleteAdminPrincipal org._id,
         .dropTenant (dbNameFor orgName)]⟩

/-- The success value of `AuthService.adminLogin`. -/
structure LoginResult where
  access_token : Token
  refresh_token : Token
  token_type : String
  expires_in : Nat
  admin_id : Nat
  organization_id : Option Nat
  organization_name : Option String
deriving DecidableEq, Repr

/-- `AuthService.adminLogin(email, password)` (services.js lines 208–258):
look up the admin principal by email, verify the password, issue both
tokens, and persist the refresh token's fingerprint and issuance time on
the admin document. -/
def adminLogin (s : DbState) (now : Nat) (email password : String) : OpOut LoginResult :=
  if email = "" ∨ password = "" then ⟨.error .missingFields, s, []⟩
  else
    match s.admin_users.find? (fun a => a.admin_email == email) with
    | none => ⟨.error .invalidCredentials, s, []⟩
    | some admin =>
      if verifyPassword password admin.password = false then
        ⟨.error .invalidCredentials, s, []⟩
      else
        let accessToken := createAccessToken now admin._id admin.organization_id
          admin.organization_name admin.role
        let refreshToken := createRefreshToken now admin._id admin.organization_id
        let hashedRefresh := hashToken refreshToken
        let admins := updateFirst (fun a => a._id == admin._id)
          (applyLoginSet now hashedRefresh) s.admin_users
        let s1 := { s with admin_users := admins }
        ⟨.ok ⟨accessToken, refreshToken, "bearer", 15 * 60, admin._id,
          admin.organization_id, admin.organization_name⟩, s1,
          [.setRefreshFingerprint admin._id hashedRefresh]⟩

/-- The success value of `AuthService.refreshAccessToken` — note the type
has no refresh-token field: on success a new access token only is
returned. -/
structure RefreshResult where
  access_token : Token
  token_type : String
  expires_in : Nat
deriving DecidableEq, Repr

/-- `AuthService.refreshAccessToken(adminId, refreshToken)` (services.js
lines 260–299): verify the presented token and its refresh type marker,
look up the principal by id, compare fingerprints, and on success issue a
new access token only, touching no stored record.  (`new ObjectId(adminId)`
is abstracted: ids are modelled as plain numbers, so id parsing
cannot fail.) -/
def refreshAccessToken (s : DbState) (now : Nat) (adminId : Nat) (refreshToken : Token) :
    OpOut RefreshResult :=
  match verifyToken now refreshToken with
  | none => ⟨.error .invalidRefreshToken, s, []⟩
  | some payload =>
    if payload.isRefreshType = false then
      ⟨.error .invalidRefreshToken, s, []⟩
    else
      match s.admin_users.find? (fun a => a._id == adminId) with
      | none => ⟨.error .notFound, s, []⟩
      | some admin =>
        if admin.refresh_token_hash ≠ some (hashToken refreshToken) then
          ⟨.error .refreshMismatch, s, []⟩
        else
          ⟨.ok ⟨createAccessToken now admin._id admin.organization_id
            admin.organization_name admin.role, "bearer", 15 * 60⟩, s, []⟩

/-- The empty store: no organizations, no admins, no tenant databases. -/
def emptyState : DbState := ⟨[], [], [], 0, 0⟩

/-- The scenario of spec section 8: create organization "Acme Inc". -/
def acmeCreate : OpOut CreateResult :=
  createOrganization emptyState 0 "Acme Inc" "admin@acme.com" "Secret123"

/-- The store after creating "Acme Inc" on an empty store. -/
def sAcme : DbState := acmeCreate.state

/-- The admin principal of "Acme Inc" as it sits in `sAcme` (tenant user got
id 0, the admin id 1, the organization record id 2, and the admin's
organization reference was back-filled to 2). -/
def aAcme : AdminRecord :=
  ⟨1, "admin@acme.com", hashPassword 0 "Secret123", "org_admin", some 2,
   some "Acme Inc", 0, true, none, none⟩

/-- The refresh token issued by a login of the Acme admin at time 0. -/
def acmeRefreshTok : Token := createRefreshToken 0 1 (some 2)

/-- The store after the Acme admin logs in at time 0. -/
def sAcmeLogin : DbState := (adminLogin sAcme 0 "admin@acme.com" "Secret123").state

/-- The organization record of "Acme Inc" as it sits in `sAcme`. -/
def orgAcme : OrgRecord :=
  ⟨2, "Acme Inc", "org_acme_inc", "admin@acme.com", 0, 0, true⟩

/-- The `admin_users` collection after `adminLogin` found admin `a` at time
`now` and persisted the fresh refresh-token fingerprint on it. -/
def loginUpdatedAdmins (s : DbState) (now : Nat) (a : AdminRecord) : List AdminRecord :=
  updateFirst (fun x => x._id == a._id)
    (applyLoginSet now (hashToken (createRefreshToken now a._id a.organization_id)))
    s.admin_users

/-- The store after updating "Acme Inc" to a new email and password. -/
def acmeUpdate : OpOut UpdateResult :=
  updateOrganization sAcme 1 "Acme Inc" "new@acme.com" "NewSecret9"

/-- The Acme admin record after the login at time 0 stored the refresh-token
fingerprint. -/
def aAcmeLoggedIn : AdminRecord := applyLoginSet 0 (hashToken acmeRefreshTok) aAcme

/-! ## Helper lemmas about the list-level store primitives -/

theorem map_updateFirst {α β : Type} (p : α → Bool) (f : α → α) (g : α → β)
    (h : ∀ x, g (f x) = g x) :
    ∀ xs : List α, (updateFirst p f xs).map g = xs.map g
  | [] => rfl
  | x :: xs => by
      by_cases hx : p x <;>
        simp [updateFirst, hx, h, map_updateFirst p f g h xs]

theorem find?_updateFirst_key {α β : Type} [BEq β] [LawfulBEq β] (key : α → β)
    (p : α → Bool) (f : α → α) :
    ∀ (xs : List α) (a : α), xs.find? p = some a → (xs.map key).Nodup →
      key (f a) = key a →
      (updateFirst (fun x => key x == key a) f xs).find? (fun x => key x == key a) = some (f a)
  | [], a, hfind, _, _ => by simp at hfind
  | x :: xs, a, hfind, hnd, hkey => by
      rw [List.map_cons, List.nodup_cons] at hnd
      by_cases hx : p x
      · rw [List.find?_cons_of_pos _ hx] at hfind
        have hax : x = a := by simpa using hfind
        subst hax
        simp only [updateFirst, beq_self_eq_true, if_true]
        exact List.find?_cons_of_pos _ (by simp [hkey])
      · rw [List.find?_cons_of_neg _ hx] at hfind
        have hmem : a ∈ xs := List.mem_of_find?_eq_some hfind
        have hne : (key x == key a) = false := by
          apply beq_eq_false_iff_ne.mpr
          intro hcontra
          exact hnd.1 (hcontra ▸ List.mem_map_of_mem key hmem)
        rw [updateFirst, if_neg (by simp [hne])]
        rw [List.find?_cons_of_neg _ (by simp [hne])]
        exact find?_updateFirst_key key p f xs a hfind hnd.2 hkey

theorem find?_updateFirst_pred {α β : Type} [BEq β] [LawfulBEq β] (key : α → β)
    (p : α → Bool) (f : α → α) :
    ∀ (xs : List α) (a : α), xs.find? p = some a → (xs.map key).Nodup →
      key (f a) = key a → p (f a) = true →
      (updateFirst (fun x => key x == key a) f xs).find? p = some (f a)
  | [], a, hfind, _, _, _ => by simp at hfind
  | x :: xs, a, hfind, hnd, hkey, hpf => by
      rw [List.map_cons, List.nodup_cons] at hnd
      by_cases hx : p x
      · rw [List.find?_cons_of_pos _ hx] at hfind
        have hax : x = a := by simpa using hfind
        subst hax
        simp only [updateFirst, beq_self_eq_true, if_true]
        exact List.find?_cons_of_pos _ hpf
      · rw [List.find?_cons_of_neg _ hx] at hfind
        have hmem : a ∈ xs := List.mem_of_find?_eq_some hfind
        have hne : (key x == key a) = false := by
          apply beq_eq_false_iff_ne.mpr
          intro hcontra
          exact hnd.1 (hcontra ▸ List.mem_map_of_mem key hmem)
        rw [updateFirst, if_neg (by simp [hne])]
        rw [List.find?_cons_of_neg _ hx]
        exact find?_updateFirst_pred key p f xs a hfind hnd.2 hkey hpf

theorem find?_deleteFirst_key {α β : Type} [BEq β] [LawfulBEq β] (key : α → β) (n : β) :
    ∀ (xs : List α) (a : α), xs.find? (fun x => key x == n) = some a →
      (xs.map key).Nodup →
      (deleteFirst (fun x => key x == n) xs).find? (fun x => key x == n) = none
  | [], a, hfind, _ => by simp at hfind
  | x :: xs, a, hfind, hnd => by
      rw [List.map_cons, List.nodup_cons] at hnd
      have hnd' := hnd
      by_cases hx : (key x == n) = true
      · rw [deleteFirst, if_pos (by simpa using hx)]
        apply List.find?_eq_none.mpr
        intro y hy hpy
        have h1 : key y = key x := by
          have := eq_of_beq hx
          have h2 := eq_of_beq (by simpa using hpy : key y == n)
          rw [h2, this]
        exact hnd'.1 (h1 ▸ List.mem_map_of_mem key hy)
      · rw [List.find?_cons_of_neg _ (by simpa using hx)] at hfind
        rw [deleteFirst, if_neg (by simpa using hx)]
        rw [List.find?_cons_of_neg _ (by simpa using hx)]
        exact find?_deleteFirst_key key n xs a hfind hnd'.2

theorem find?_append_of_none {α : Type} (p : α → Bool) :
    ∀ xs ys : List α, xs.find? p = none → (xs ++ ys).find? p = ys.find? p
  | [], _, _ => rfl
  | x :: xs, ys, h => by
      have hx : p x = false := by
        by_contra hcon
        rw [List.find?_cons_of_pos _ (by simpa using hcon)] at h
        exact Option.noConfusion h
      rw [List.find?_cons_of_neg _ (by simp [hx])] at h
      rw [List.cons_append, List.find?_cons_of_neg _ (by simp [hx])]
      exact find?_append_of_none p xs ys h

@[simp]
theorem setTenant_organizations (s : DbState) (d : String) (us : List UserRecord) :
    (setTenant s d us).organizations = s.organizations := by
  unfold setTenant; split <;> rfl

@[simp]
theorem setTenant_admin_users (s : DbState) (d : String) (us : List UserRecord) :
    (setTenant s d us).admin_users = s.admin_users := by
  unfold setTenant; split <;> rfl

@[simp]
theorem setTenant_nextId (s : DbState) (d : String) (us : List UserRecord) :
    (setTenant s d us).nextId = s.nextId := by
  unfold setTenant; split <;> rfl

@[simp]
theorem setTenant_nextSalt (s : DbState) (d : String) (us : List UserRecord) :
    (setTenant s d us).nextSalt = s.nextSalt := by
  unfold setTenant; split <;> rfl

/-! ## The two namespace derivations agree -/

theorem foldl_collapseRunsStep :
    ∀ (cs : List Char) (acc : List Char) (prev : Bool),
      (cs.foldl collapseRunsStep (acc, prev)).1 = acc ++ squashWs prev cs
  | [], acc, prev => by simp [squashWs]
  | c :: cs, acc, prev => by
      by_cases hc : isJsWhitespace c
      · cases prev
        · rw [List.foldl_cons]
          have hstep : collapseRunsStep (acc, false) c = (acc ++ ['_'], true) := by
            simp [collapseRunsStep, hc]
          rw [hstep, foldl_collapseRunsStep cs (acc ++ ['_']) true]
          simp [squashWs, hc]
        · rw [List.foldl_cons]
          have hstep : collapseRunsStep (acc, true) c = (acc, true) := by
            simp [collapseRunsStep, hc]
          rw [hstep, foldl_collapseRunsStep cs acc true]
          simp [squashWs, hc]
      · rw [List.foldl_cons]
        have hstep : collapseRunsStep (acc, prev) c = (acc ++ [c], false) := by
          simp [collapseRunsStep, hc]
        rw [hstep, foldl_collapseRunsStep cs (acc ++ [c]) false]
        simp [squashWs, hc]

theorem namespaceFor_eq_dbNameFor (n : String) : namespaceFor n = dbNameFor n := by
  unfold namespaceFor dbNameFor
  rw [foldl_collapseRunsStep]
  simp

/-! ## Success-shape lemmas for login and create -/

theorem adminLogin_ok (s : DbState) (now : Nat) (e p : String) (a : AdminRecord)
    (he : e ≠ "") (hp : p ≠ "")
    (hfind : s.admin_users.find? (fun x => x.admin_email == e) = some a)
    (hv : verifyPassword p a.password = true) :
    adminLogin s now e p =
      ⟨.ok ⟨createAccessToken now a._id a.organization_id a.organization_name a.role,
            createRefreshToken now a._id a.organization_id, "bearer", 15 * 60, a._id,
            a.organization_id, a.organization_name⟩,
       { s with admin_users := loginUpdatedAdmins s now a },
       [.setRefreshFingerprint a._id
          (hashToken (createRefreshToken now a._id a.organization_id))]⟩ := by
  unfold adminLogin
  rw [if_neg (by simp [he, hp]), hfind]
  simp [hv, loginUpdatedAdmins]

theorem createOrganization_ok (s : DbState) (now : Nat) (n e p : String)
    (hn : n ≠ "") (he : e ≠ "") (hp : p ≠ "")
    (hEmail : isEmail e = true) (hlen : ¬ p.length < 6)
    (habs : s.organizations.find? (fun o => o.organization_name == n) = none) :
    (createOrganization s now n e p).result =
      .ok ⟨s.nextId + 2, n, dbNameFor n, e, now, "Organization created successfully"⟩ ∧
    (createOrganization s now n e p).log =
      [.provisionTenant (dbNameFor n), .hashPw s.nextSalt,
       .insertTenantUser (dbNameFor n)
         ⟨s.nextId, e, hashPassword s.nextSalt p, "org_admin", now, true, none⟩,
       .insertAdmin ⟨s.nextId + 1, e, hashPassword s.nextSalt p, "org_admin", none,
         some n, now, true, none, none⟩,
       .insertOrg ⟨s.nextId + 2, n, dbNameFor n, e, s.nextId, now, true⟩,
       .backfillAdmin (s.nextId + 1) (s.nextId + 2)] ∧
    (createOrganization s now n e p).state.organizations =
      s.organizations ++ [⟨s.nextId + 2, n, dbNameFor n, e, s.nextId, now, true⟩] := by
  unfold createOrganization
  rw [if_neg (by simp [hn, he, hp]), if_neg (by simp [hEmail]), if_neg hlen, habs]
  refine ⟨by simp, by simp [hashPassword], by simp⟩

theorem refreshAccessToken_state (s : DbState) (now aid : Nat) (tok : Token) :
    (refreshAccessToken s now aid tok).state = s := by
  unfold refreshAccessToken
  repeat' split
  all_goals rfl

theorem refreshAccessToken_log (s : DbState) (now aid : Nat) (tok : Token) :
    (refreshAccessToken s now aid tok).log = [] := by
  unfold refreshAccessToken
  repeat' split
  all_goals rfl

theorem deleteOrganization_notFound (s : DbState) (n : String) (aid : Nat)
    (hn : n ≠ "")
    (habs : s.organizations.find? (fun o => o.organization_name == n) = none) :
    deleteOrganization s n aid = ⟨.error .notFound, s, []⟩ := by
  unfold deleteOrganization
  rw [if_neg hn, habs]

/-! ## The claims -/

/-- C2, counterexample to the claim as stated: for the (degenerate) email
`""` and password `"somepass"` on the empty store, no admin principal with
that email exists, yet login does not fail with `InvalidCredentials` — the
missing-field validation guard fires first. -/
theorem c2_counterexample :
    emptyState.admin_users.find? (fun a => a.admin_email == "") = none ∧
    (adminLogin emptyState 0 "" "somepass").result = .error .missingFields ∧
    (adminLogin emptyState 0 "" "somepass").result ≠ .error .invalidCredentials := by
  refine ⟨rfl, rfl, by decide⟩

/-- C2 (amended: for nonempty email and password): a login whose email
matches no admin principal and a login whose email matches admin `a` but
whose password fails verification produce literally the same outcome — the
error `InvalidCredentials`, an unchanged store, and no writes — so the two
failure causes are indistinguishable to an observer. -/
theorem c2_login_failure_indistinguishable (s : DbState) (now : Nat)
    (e1 p1 e2 p2 : String) (a : AdminRecord)
    (he1 : e1 ≠ "") (hp1 : p1 ≠ "") (he2 : e2 ≠ "") (hp2 : p2 ≠ "")
    (habs : s.admin_users.find? (fun x => x.admin_email == e1) = none)
    (hfound : s.admin_users.find? (fun x => x.admin_email == e2) = some a)
    (hbad : verifyPassword p2 a.password = false) :
    adminLogin s now e1 p1 = adminLogin s now e2 p2 ∧
    adminLogin s now e1 p1 = ⟨.error .invalidCredentials, s, []⟩ := by
  have h1 : adminLogin s now e1 p1 = ⟨.error .invalidCredentials, s, []⟩ := by
    unfold adminLogin
    rw [if_neg (by simp [he1, hp1]), habs]
  have h2 : adminLogin s now e2 p2 = ⟨.error .invalidCredentials, s, []⟩ := by
    unfold adminLogin
    rw [if_neg (by simp [he2, hp2]), hfound]
    simp [hbad]
  exact ⟨h1.trans h2.symm, h1⟩

/-- C2 witness: on the Acme store, login with an unknown email and login
with the Acme admin's email but a wrong password coincide, both giving
`InvalidCredentials`. -/
theorem c2_witness :
    adminLogin sAcme 3 "ghost@acme.com" "whatever1" =
      adminLogin sAcme 3 "admin@acme.com" "wrongpass" ∧
    adminLogin sAcme 3 "ghost@acme.com" "whatever1" =
      ⟨.error .invalidCredentials, sAcme, []⟩ :=
  c2_login_failure_indistinguishable sAcme 3 "ghost@acme.com" "whatever1"
    "admin@acme.com" "wrongpass" aAcme (by decide) (by decide) (by decide) (by decide)
    (by decide) (by decide) (by decide)

/-- C3: for a valid input triple whose name is not yet registered, `create`
followed by `get` on the same name returns a record whose `db_name` equals
the spec's pure derivation `namespaceFor` applied to the name. -/
theorem c3_create_get_namespace (s : DbState) (now : Nat) (n e p : String)
    (hn : n ≠ "") (he : e ≠ "") (hp : p ≠ "")
    (hEmail : isEmail e = true) (hlen : ¬ p.length < 6)
    (habs : s.organizations.find? (fun o => o.organization_name == n) = none) :
    (createOrganization s now n e p).result.isOk = true ∧
    (getOrganization (createOrganization s now n e p).state n).result =
      .ok ⟨s.nextId + 2, n, namespaceFor n, e, now, true⟩ := by
  obtain ⟨hres, hlog, horgs⟩ := createOrganization_ok s now n e p hn he hp hEmail hlen habs
  constructor
  · rw [hres]; rfl
  · unfold getOrganization
    rw [if_neg hn, horgs, find?_append_of_none _ _ _ habs]
    rw [List.find?_cons_of_pos _ (by simp)]
    rw [namespaceFor_eq_dbNameFor]

/-- C3 witness: creating "Acme Inc" and reading it back yields a record
whose namespace id is `namespaceFor "Acme Inc"` (that is, `org_acme_inc`). -/
theorem c3_witness :
    acmeCreate.result.isOk = true ∧
    (getOrganization acmeCreate.state "Acme Inc").result =
      .ok ⟨2, "Acme Inc", namespaceFor "Acme Inc", "admin@acme.com", 0, true⟩ :=
  c3_create_get_namespace emptyState 0 "Acme Inc" "admin@acme.com" "Secret123"
    (by decide) (by decide) (by decide) (by decide) (by decide) (by decide)

/-- C4: the refresh error taxonomy.  A presented token that fails
signature/expiry verification or lacks the refresh type marker gives
`InvalidRefreshToken`; an unknown principal id gives `NotFound`; a
fingerprint differing from the stored one gives `RefreshMismatch`; and
otherwise the call succeeds with a fresh access token. -/
theorem c4_refresh_error_taxonomy (s : DbState) (now aid : Nat) (tok : Token) :
    (verifyToken now tok = none →
      (refreshAccessToken s now aid tok).result = .error .invalidRefreshToken) ∧
    (∀ pl, verifyToken now tok = some pl → pl.isRefreshType = false →
      (refreshAccessToken s now aid tok).result = .error .invalidRefreshToken) ∧
    (∀ pl, verifyToken now tok = some pl → pl.isRefreshType = true →
      s.admin_users.find? (fun x => x._id == aid) = none →
      (refreshAccessToken s now aid tok).result = .error .notFound) ∧
    (∀ pl a, verifyToken now tok = some pl → pl.isRefreshType = true →
      s.admin_users.find? (fun x => x._id == aid) = some a →
      a.refresh_token_hash ≠ some (hashToken tok) →
      (refreshAccessToken s now aid tok).result = .error .refreshMismatch) ∧
    (∀ pl a, verifyToken now tok = some pl → pl.isRefreshType = true →
      s.admin_users.find? (fun x => x._id == aid) = some a →
      a.refresh_token_hash = some (hashToken tok) →
      (refreshAccessToken s now aid tok).result =
        .ok ⟨createAccessToken now a._id a.organization_id a.organization_name a.role,
             "bearer", 15 * 60⟩) := by
  refine ⟨?_, ?_, ?_, ?_, ?_⟩
  · intro h
    unfold refreshAccessToken
    rw [h]
  · intro pl h1 h2
    unfold refreshAccessToken
    rw [h1]
    simp [h2]
  · intro pl h1 h2 h3
    unfold refreshAccessToken
    rw [h1]
    simp [h2, h3]
  · intro pl a h1 h2 h3 h4
    unfold refreshAccessToken
    rw [h1]
    simp [h2, h3, h4]
  · intro pl a h1 h2 h3 h4
    unfold refreshAccessToken
    rw [h1]
    simp [h2, h3, h4]

/-- C4 witness: one concrete instance of each branch of the taxonomy — a
forged token, an access token presented as refresh, an unknown admin id, a
fingerprint mismatch (no fingerprint stored yet), and a success. -/
theorem c4_witness :
    (refreshAccessToken emptyState 0 0 (Token.forged "zzz")).result =
      .error .invalidRefreshToken ∧
    (refreshAccessToken emptyState 0 0 (createAccessToken 0 1 none none "admin")).result =
      .error .invalidRefreshToken ∧
    (refreshAccessToken emptyState 0 7 (createRefreshToken 0 7 none)).result =
      .error .notFound ∧
    (refreshAccessToken sAcme 1 1 acmeRefreshTok).result = .error .refreshMismatch ∧
    (refreshAccessToken sAcmeLogin 1 1 acmeRefreshTok).result =
      .ok ⟨createAccessToken 1 1 (some 2) (some "Acme Inc") "org_admin", "bearer", 15 * 60⟩ := by
  refine ⟨(c4_refresh_error_taxonomy emptyState 0 0 (Token.forged "zzz")).1 (by decide),
    (c4_refresh_error_taxonomy emptyState 0 0 (createAccessToken 0 1 none none "admin")).2.1
      (.access 1 none none "admin") (by decide) (by decide),
    (c4_refresh_error_taxonomy emptyState 0 7 (createRefreshToken 0 7 none)).2.2.1
      (.refresh 7 none) (by decide) (by decide) (by decide),
    (c4_refresh_error_taxonomy sAcme 1 1 acmeRefreshTok).2.2.2.1
      (.refresh 1 (some 2)) aAcme (by decide) (by decide) (by decide) (by decide),
    (c4_refresh_error_taxonomy sAcmeLogin 1 1 acmeRefreshTok).2.2.2.2
      (.refresh 1 (some 2)) aAcmeLoggedIn (by decide) (by decide) (by decide) (by decide)⟩

/-- C5: every refresh call — successful or not — leaves the store unchanged
(in particular the stored refresh-token fingerprint and its issuance
timestamp) and issues no write command; on success the result is exactly a
fresh access token with the fixed metadata, and its type (`RefreshResult`)
has no refresh-token field at all: the refresh token is never rotated on
use. -/
theorem c5_refresh_frame (s : DbState) (now aid : Nat) (tok : Token) :
    (refreshAccessToken s now aid tok).state = s ∧
    (refreshAccessToken s now aid tok).log = [] ∧
    (∀ res, (refreshAccessToken s now aid tok).result = .ok res →
      ∃ a, s.admin_users.find? (fun x => x._id == aid) = some a ∧
        res = ⟨createAccessToken now a._id a.organization_id a.organization_name a.role,
               "bearer", 15 * 60⟩) := by
  refine ⟨refreshAccessToken_state s now aid tok, refreshAccessToken_log s now aid tok, ?_⟩
  intro res h
  unfold refreshAccessToken at h
  split at h
  · simp at h
  · split at h
    · simp at h
    · split at h
      · simp at h
      · split at h
        · simp at h
        · rename_i a hfind hh
          refine ⟨a, hfind, ?_⟩
          simpa using h.symm

/-- C5 witness: the concrete successful refresh of the logged-in Acme admin
leaves the store untouched and returns only the new access token. -/
theorem c5_witness :
    (refreshAccessToken sAcmeLogin 1 1 acmeRefreshTok).state = sAcmeLogin ∧
    (refreshAccessToken sAcmeLogin 1 1 acmeRefreshTok).log = [] ∧
    (∃ a, sAcmeLogin.admin_users.find? (fun x => x._id == 1) = some a ∧
      (⟨createAccessToken 1 1 (some 2) (some "Acme Inc") "org_admin", "bearer", 15 * 60⟩ :
          RefreshResult) =
        ⟨createAccessToken 1 a._id a.organization_id a.organization_name a.role,
         "bearer", 15 * 60⟩) :=
  ⟨(c5_refresh_frame sAcmeLogin 1 1 acmeRefreshTok).1,
   (c5_refresh_frame sAcmeLogin 1 1 acmeRefreshTok).2.1,
   (c5_refresh_frame sAcmeLogin 1 1 acmeRefreshTok).2.2
     ⟨createAccessToken 1 1 (some 2) (some "Acme Inc") "org_admin", "bearer", 15 * 60⟩
     (by decide)⟩

/-- C7, counterexample to the claim as stated: "Acme Inc" is registered, but
a second create for "Acme Inc" with a malformed email fails with the email
validation error, not with `AlreadyExists` — validation runs before the
duplicate check. -/
theorem c7_counterexample :
    (sAcme.organizations.find? (fun o => o.organization_name == "Acme Inc")).isSome = true ∧
    (createOrganization sAcme 5 "Acme Inc" "not-an-email" "Secret123").result =
      .error .invalidEmailFormat ∧
    (createOrganization sAcme 5 "Acme Inc" "not-an-email" "Secret123").result ≠
      .error .alreadyExists := by
  refine ⟨by decide, by decide, by decide⟩

/-- C7 (amended: for email and password that pass input validation): a
second create with the name of a registered organization fails with
`AlreadyExists`, leaves the store exactly as it was, and issues no write
command at all — the duplicate check runs before any tenant provisioning or
other write. -/
theorem c7_duplicate_create_rejected (s : DbState) (now : Nat) (n e p : String)
    (o : OrgRecord)
    (hfound : s.organizations.find? (fun x => x.organization_name == n) = some o)
    (hn : n ≠ "") (he : e ≠ "") (hp : p ≠ "")
    (hEmail : isEmail e = true) (hlen : ¬ p.length < 6) :
    createOrganization s now n e p = ⟨.error .alreadyExists, s, []⟩ := by
  unfold createOrganization
  rw [if_neg (by simp [hn, he, hp]), if_neg (by simp [hEmail]), if_neg hlen, hfound]

/-- C7 witness: re-creating "Acme Inc" with fresh valid credentials fails
with `AlreadyExists` and performs no write. -/
theorem c7_witness :
    createOrganization sAcme 5 "Acme Inc" "other@x.co" "Another9" =
      ⟨.error .alreadyExists, sAcme, []⟩ :=
  c7_duplicate_create_rejected sAcme 5 "Acme Inc" "other@x.co" "Another9" orgAcme
    (by decide) (by decide) (by decide) (by decide) (by decide) (by decide)

/-- C9, counterexample to the claim as stated: in the concrete successful
create of "Acme Inc", the tenant-local user mirror is written at position 2
of the write sequence and the admin principal at position 3 — the mirror
write precedes the admin-principal write, not the other way around as the
claim orders them. -/
theorem c9_counterexample :
    acmeCreate.result.isOk = true ∧
    acmeCreate.log.findIdx Event.isTenantUserWrite = 2 ∧
    acmeCreate.log.findIdx Event.isAdminInsert = 3 := by
  refine ⟨by decide, by decide, by decide⟩

/-- C9 (amended: the tenant-local user mirror is written before the admin
principal): a successful create issues exactly the sequence: provision the
tenant namespace, hash the password once, write the tenant-local user
mirror, write the admin principal, write the organization record, back-fill
the admin principal's organization reference; the mirror and the admin
principal share the single hash, and the returned summary carries the
generated namespace id. -/
theorem c9_write_sequence (s : DbState) (now : Nat) (n e p : String)
    (hn : n ≠ "") (he : e ≠ "") (hp : p ≠ "")
    (hEmail : isEmail e = true) (hlen : ¬ p.length < 6)
    (habs : s.organizations.find? (fun o => o.organization_name == n) = none) :
    (createOrganization s now n e p).log =
      [.provisionTenant (dbNameFor n), .hashPw s.nextSalt,
       .insertTenantUser (dbNameFor n)
         ⟨s.nextId, e, hashPassword s.nextSalt p, "org_admin", now, true, none⟩,
       .insertAdmin ⟨s.nextId + 1, e, hashPassword s.nextSalt p, "org_admin", none,
         some n, now, true, none, none⟩,
       .insertOrg ⟨s.nextId + 2, n, dbNameFor n, e, s.nextId, now, true⟩,
       .backfillAdmin (s.nextId + 1) (s.nextId + 2)] ∧
    (createOrganization s now n e p).result =
      .ok ⟨s.nextId + 2, n, dbNameFor n, e, now, "Organization created successfully"⟩ := by
  obtain ⟨hres, hlog, horgs⟩ := createOrganization_ok s now n e p hn he hp hEmail hlen habs
  exact ⟨hlog, hres⟩

/-- C9 witness: the write sequence of the concrete create of "Acme Inc". -/
theorem c9_witness :
    acmeCreate.log =
      [.provisionTenant (dbNameFor "Acme Inc"), .hashPw 0,
       .insertTenantUser (dbNameFor "Acme Inc")
         ⟨0, "admin@acme.com", hashPassword 0 "Secret123", "org_admin", 0, true, none⟩,
       .insertAdmin ⟨1, "admin@acme.com", hashPassword 0 "Secret123", "org_admin", none,
         some "Acme Inc", 0, true, none, none⟩,
       .insertOrg ⟨2, "Acme Inc", dbNameFor "Acme Inc", "admin@acme.com", 0, 0, true⟩,
       .backfillAdmin 1 2] ∧
    acmeCreate.result =
      .ok ⟨2, "Acme Inc", dbNameFor "Acme Inc", "admin@acme.com", 0,
           "Organization created successfully"⟩ :=
  c9_write_sequence emptyState 0 "Acme Inc" "admin@acme.com" "Secret123"
    (by decide) (by decide) (by decide) (by decide) (by decide) (by decide)

/-- C10: the outcome of `deleteOrganization` — result, final state and write
log alike — does not depend on the requesting principal id, and the service
layer never fails with `Forbidden`; ownership enforcement lives only in the
HTTP layer, which is out of scope. -/
theorem c10_delete_ignores_principal (s : DbState) (n : String) (a1 a2 : Nat) :
    deleteOrganization s n a1 = deleteOrganization s n a2 ∧
    ∀ a, (deleteOrganization s n a).result ≠ .error .forbidden := by
  refine ⟨rfl, ?_⟩
  intro a h
  unfold deleteOrganization at h
  split at h
  · simp at h
  · split at h
    · simp at h
    · simp at h

/-- C10 witness: two different principal ids produce the same deletion
outcome on the Acme store, and the outcome is not `Forbidden`. -/
theorem c10_witness :
    deleteOrganization sAcme "Acme Inc" 3 = deleteOrganization sAcme "Acme Inc" 4 ∧
    (deleteOrganization sAcme "Acme Inc" 3).result ≠ .error .forbidden :=
  ⟨(c10_delete_ignores_principal sAcme "Acme Inc" 3 4).1,
   (c10_delete_ignores_principal sAcme "Acme Inc" 3 4).2 3⟩

/-- C8, counterexample to the claim as stated: no organization named `""` is
registered in the empty store, yet deleting `""` fails with the
missing-field validation error, not with `NotFound`. -/
theorem c8_counterexample :
    emptyState.organizations.find? (fun o => o.organization_name == "") = none ∧
    (deleteOrganization emptyState "" 0).result = .error .missingFields ∧
    (deleteOrganization emptyState "" 0).result ≠ .error .notFound := by
  refine ⟨rfl, rfl, by decide⟩

/-- C8 (amended: for a nonempty organization name): delete of an absent
organization fails with `NotFound` touching nothing; delete of a registered
organization succeeds, issuing exactly the registry-record delete, the
admin-principal delete and the tenant-namespace drop in that order, and
afterwards both `get` and a repeated `delete` on the same name fail with
`NotFound`. -/
theorem c8_delete_lifecycle (s : DbState) (n : String) (aid : Nat)
    (hn : n ≠ "")
    (hnd : (s.organizations.map (fun o => o.organization_name)).Nodup) :
    (s.organizations.find? (fun o => o.organization_name == n) = none →
      deleteOrganization s n aid = ⟨.error .notFound, s, []⟩) ∧
    (∀ o, s.organizations.find? (fun x => x.organization_name == n) = some o →
      (deleteOrganization s n aid).result = .ok ⟨"Organization deleted successfully", n⟩ ∧
      (deleteOrganization s n aid).log =
        [.deleteOrgRecord n, .deleteAdminPrincipal o._id, .dropTenant (dbNameFor n)] ∧
      (getOrganization (deleteOrganization s n aid).state n).result = .error .notFound ∧
      (deleteOrganization (deleteOrganization s n aid).state n aid).result =
        .error .notFound) := by
  constructor
  · intro habs
    exact deleteOrganization_notFound s n aid hn habs
  · intro o hfound
    have hstate : (deleteOrganization s n aid).state.organizations =
        deleteFirst (fun x => x.organization_name == n) s.organizations := by
      unfold deleteOrganization
      rw [if_neg hn, hfound]
    have hgone : (deleteFirst (fun x => x.organization_name == n) s.organizations).find?
        (fun x => x.organization_name == n) = none :=
      find?_deleteFirst_key (fun x : OrgRecord => x.organization_name) n s.organizations o
        hfound hnd
    have h4 : (deleteOrganization s n aid).state.organizations.find?
        (fun x => x.organization_name == n) = none := by
      rw [hstate]; exact hgone
    refine ⟨?_, ?_, ?_, ?_⟩
    · unfold deleteOrganization; rw [if_neg hn, hfound]
    · unfold deleteOrganization; rw [if_neg hn, hfound]
    · unfold getOrganization
      rw [if_neg hn, h4]
    · rw [deleteOrganization_notFound ((deleteOrganization s n aid).state) n aid hn h4]

/-- C8 witness: deleting "Acme Inc" succeeds with the three writes in
order, and both `get` and a repeated `delete` then fail with `NotFound`. -/
theorem c8_witness :
    (deleteOrganization sAcme "Acme Inc" 1).result =
      .ok ⟨"Organization deleted successfully", "Acme Inc"⟩ ∧
    (deleteOrganization sAcme "Acme Inc" 1).log =
      [.deleteOrgRecord "Acme Inc", .deleteAdminPrincipal 2,
       .dropTenant (dbNameFor "Acme Inc")] ∧
    (getOrganization (deleteOrganization sAcme "Acme Inc" 1).state "Acme Inc").result =
      .error .notFound ∧
    (deleteOrganization (deleteOrganization sAcme "Acme Inc" 1).state "Acme Inc" 1).result =
      .error .notFound :=
  (c8_delete_lifecycle sAcme "Acme Inc" 1 (by decide) (by decide)).2 orgAcme (by decide)

/-- C6: the claim says `update` writes the new credentials to BOTH the
master admin principal and the tenant-local user mirror — and the source's
own comment "Update in organization database" shows that intent — but the
tenant-side `updateOne` filters on `role: 'admin'` while the mirror row is
created with role `org_admin`, so the mirror is never touched.  Concretely:
after creating "Acme Inc" and updating it to a new email and password, the
update reports success, the tenant users collection is bit-for-bit what it
was after creation (old email, old hash), while the master admin principal
did change; the claim's login consequence still holds because login reads
only the master admin collection. -/
theorem c6_mirror_not_updated :
    acmeUpdate.result = .ok ⟨"Organization updated successfully", "Acme Inc"⟩ ∧
    getTenant acmeUpdate.state "org_acme_inc" = getTenant sAcme "org_acme_inc" ∧
    getTenant acmeUpdate.state "org_acme_inc" =
      [⟨0, "admin@acme.com", hashPassword 0 "Secret123", "org_admin", 0, true, none⟩] ∧
    (acmeUpdate.state.admin_users.find?
      (fun a => a.admin_email == "new@acme.com")).isSome = true ∧
    (adminLogin acmeUpdate.state 2 "new@acme.com" "Secret123").result =
      .error .invalidCredentials ∧
    (adminLogin acmeUpdate.state 2 "new@acme.com" "NewSecret9").result.isOk = true := by
  refine ⟨by decide, by decide, by decide, by decide, by decide, by decide⟩

/-- C1: the stored refresh-token fingerprint tracks the most recently
issued refresh token.  After a login at time `t1` issues refresh token `R`
and persists `fingerprint(R)`, a refresh presented with `R` (within its
validity window) succeeds; after a subsequent login of the same principal
at a later time `t3`, which overwrites the stored fingerprint, a refresh
presented with the original `R` fails with `RefreshMismatch`. -/
theorem c1_refresh_fingerprint_tracks_latest_login
    (s : DbState) (t1 t2 t3 : Nat) (e p : String) (a : AdminRecord)
    (hnd : (s.admin_users.map (fun x => x._id)).Nodup)
    (he : e ≠ "") (hp : p ≠ "")
    (hfind : s.admin_users.find? (fun x => x.admin_email == e) = some a)
    (hv : verifyPassword p a.password = true)
    (ht2 : t2 < t1 + refreshTtl) (ht13 : t1 < t3) :
    (adminLogin s t1 e p).result =
      .ok ⟨createAccessToken t1 a._id a.organization_id a.organization_name a.role,
           createRefreshToken t1 a._id a.organization_id, "bearer", 15 * 60, a._id,
           a.organization_id, a.organization_name⟩ ∧
    (∃ res, (refreshAccessToken (adminLogin s t1 e p).state t2 a._id
        (createRefreshToken t1 a._id a.organization_id)).result = .ok res) ∧
    (adminLogin (adminLogin s t1 e p).state t3 e p).result.isOk = true ∧
    (refreshAccessToken (adminLogin (adminLogin s t1 e p).state t3 e p).state t2 a._id
        (createRefreshToken t1 a._id a.organization_id)).result =
      .error .refreshMismatch := by
  have hL1 := adminLogin_ok s t1 e p a he hp hfind hv
  have hstate1 : (adminLogin s t1 e p).state =
      { s with admin_users := loginUpdatedAdmins s t1 a } := by
    rw [hL1]
  have hver : verifyToken t2 (createRefreshToken t1 a._id a.organization_id) =
      some (.refresh a._id a.organization_id) := by
    simp [verifyToken, createRefreshToken, ht2]
  have hfp1 : (loginUpdatedAdmins s t1 a).find? (fun x => x._id == a._id) =
      some (applyLoginSet t1 (hashToken (createRefreshToken t1 a._id a.organization_id)) a) :=
    find?_updateFirst_key (fun x : AdminRecord => x._id) (fun x => x.admin_email == e)
      (applyLoginSet t1 (hashToken (createRefreshToken t1 a._id a.organization_id)))
      s.admin_users a hfind hnd rfl
  have hfind2 : (loginUpdatedAdmins s t1 a).find? (fun x => x.admin_email == e) =
      some (applyLoginSet t1 (hashToken (createRefreshToken t1 a._id a.organization_id)) a) :=
    find?_updateFirst_pred (fun x : AdminRecord => x._id) (fun x => x.admin_email == e)
      (applyLoginSet t1 (hashToken (createRefreshToken t1 a._id a.organization_id)))
      s.admin_users a hfind hnd rfl (by simpa [applyLoginSet] using List.find?_some hfind)
  have hL2 := adminLogin_ok { s with admin_users := loginUpdatedAdmins s t1 a } t3 e p
    (applyLoginSet t1 (hashToken (createRefreshToken t1 a._id a.organization_id)) a)
    he hp hfind2 hv
  have hstate2 : (adminLogin { s with admin_users := loginUpdatedAdmins s t1 a } t3 e p).state =
      { { s with admin_users := loginUpdatedAdmins s t1 a } with admin_users := loginUpdatedAdmins { s with admin_users := loginUpdatedAdmins s t1 a } t3 (applyLoginSet t1 (hashToken (createRefreshToken t1 a._id a.organization_id)) a) } := by
    rw [hL2]
  have hnd1 : ((loginUpdatedAdmins s t1 a).map (fun x => x._id)).Nodup := by
    have hmap := map_updateFirst (fun x : AdminRecord => x._id == a._id)
      (applyLoginSet t1 (hashToken (createRefreshToken t1 a._id a.organization_id)))
      (fun x : AdminRecord => x._id) (fun _ => rfl) s.admin_users
    unfold loginUpdatedAdmins
    rw [hmap]
    exact hnd
  have hfp2 : (loginUpdatedAdmins { s with admin_users := loginUpdatedAdmins s t1 a } t3
        (applyLoginSet t1 (hashToken (createRefreshToken t1 a._id a.organization_id)) a)).find?
        (fun x => x._id == a._id) =
      some (applyLoginSet t3 (hashToken (createRefreshToken t3 a._id a.organization_id))
        (applyLoginSet t1 (hashToken (createRefreshToken t1 a._id a.organization_id)) a)) :=
    find?_updateFirst_key (fun x : AdminRecord => x._id) (fun x => x.admin_email == e)
      (applyLoginSet t3 (hashToken (createRefreshToken t3 a._id a.organization_id)))
      (loginUpdatedAdmins s t1 a)
      (applyLoginSet t1 (hashToken (createRefreshToken t1 a._id a.organization_id)) a)
      hfind2 hnd1 rfl
  have hneq : hashToken (createRefreshToken t3 a._id a.organization_id) ≠
      hashToken (createRefreshToken t1 a._id a.organization_id) := by
    simp [hashToken, createRefreshToken]
    omega
  refine ⟨?_, ?_, ?_, ?_⟩
  · rw [hL1]
  · rw [hstate1]
    refine ⟨⟨createAccessToken t2 a._id a.organization_id a.organization_name a.role,
      "bearer", 15 * 60⟩, ?_⟩
    unfold refreshAccessToken
    rw [hver]
    simp [TokenPayload.isRefreshType, hfp1, applyLoginSet]
  · rw [hstate1, hL2]
    rfl
  · have hfp2u := hfp2
    simp only [applyLoginSet] at hfp2u
    rw [hstate1, hstate2]
    unfold refreshAccessToken
    rw [hver]
    simp [TokenPayload.isRefreshType, applyLoginSet, hfp2u, hneq]

/-- C1 witness: the concrete Acme scenario — login at time 0, refresh with
the issued token at time 1 succeeds, a second login at time 5 succeeds, and
the original refresh token is then rejected with `RefreshMismatch`. -/
theorem c1_witness :
    (adminLogin sAcme 0 "admin@acme.com" "Secret123").result =
      .ok ⟨createAccessToken 0 1 (some 2) (some "Acme Inc") "org_admin",
           createRefreshToken 0 1 (some 2), "bearer", 15 * 60, 1, some 2,
           some "Acme Inc"⟩ ∧
    (∃ res, (refreshAccessToken (adminLogin sAcme 0 "admin@acme.com" "Secret123").state 1 1
        (createRefreshToken 0 1 (some 2))).result = .ok res) ∧
    (adminLogin (adminLogin sAcme 0 "admin@acme.com" "Secret123").state 5 "admin@acme.com"
        "Secret123").result.isOk = true ∧
    (refreshAccessToken (adminLogin (adminLogin sAcme 0 "admin@acme.com" "Secret123").state 5
        "admin@acme.com" "Secret123").state 1 1 (createRefreshToken 0 1 (some 2))).result =
      .error .refreshMismatch :=
  c1_refresh_fingerprint_tracks_latest_login sAcme 0 1 5 "admin@acme.com" "Secret123" aAcme
    (by decide) (by decide) (by decide) (by decide) (by decide) (by decide) (by decide)

end Backend
